import Mathlib

/-!
Shallow embedding of the wraprun `libsplit` interposition library
(`src/split.c`) and its launcher wrapper (`src/intra_wrapper.c`).

Communicator handles are modelled as an inductive type with the two
distinguished MPI constants (`MPI_COMM_WORLD`, `MPI_COMM_NULL`) and
abstract handles for every other communicator.  Each shadowed entry
point is modelled as a function parametrised over its profiling-interface
twin (`PMPI_*`), so that the arguments the twin observes, and the value
the shadow returns, are both visible in the theorems.
-/

namespace Wraprun

/-- Communicator handles.  `world` is `MPI_COMM_WORLD`, `null` is
`MPI_COMM_NULL`, `handle n` is any other opaque communicator handle. -/
inductive Comm where
  | world : Comm
  | null : Comm
  | handle : Nat → Comm
deriving DecidableEq, Repr

/-- `GetCorrectComm` (split.c lines 320-328): if the input communicator is
`MPI_COMM_WORLD` return the library's `MPI_COMM_SPLIT` value, else return
the input communicator.  The current value of the static variable
`MPI_COMM_SPLIT` is passed explicitly as `split_comm`. -/
def GetCorrectComm (split_comm : Comm) (input_comm : Comm) : Comm :=
  if input_comm = Comm.world then split_comm else input_comm

/-- Initial value of the static `MPI_COMM_SPLIT` (split.c line 49):
`MPI_COMM_NULL`. -/
def MPI_COMM_SPLIT_initial : Comm := Comm.null

/-! ### The shadowed entry points (a representative cross-section of the
substitution table in split.c).  Non-communicator arguments are kept
abstract; each wrapper is parametrised over the `PMPI_` twin. -/

/-- Arguments of `MPI_Send` other than the communicator (buffer pointer,
count, datatype, destination, tag), kept opaque. -/
structure SendArgs where
  buf : Nat
  count : Int
  datatype : Nat
  dest : Int
  tag : Int
  comm : Comm
deriving DecidableEq, Repr

/-- `MPI_Send` (split.c lines 333-340): translate the communicator with
`GetCorrectComm` and forward everything to `PMPI_Send`, returning its
status. -/
def MPI_Send (pmpi_send : SendArgs → Int) (split_comm : Comm)
    (a : SendArgs) : Int :=
  let correct_comm := GetCorrectComm split_comm a.comm
  pmpi_send { a with comm := correct_comm }

/-- Arguments of `MPI_Recv` other than the communicator. -/
structure RecvArgs where
  buf : Nat
  count : Int
  datatype : Nat
  source : Int
  tag : Int
  comm : Comm
  status : Nat
deriving DecidableEq, Repr

/-- `MPI_Recv` (split.c lines 342-349). -/
def MPI_Recv (pmpi_recv : RecvArgs → Int) (split_comm : Comm)
    (a : RecvArgs) : Int :=
  let correct_comm := GetCorrectComm split_comm a.comm
  pmpi_recv { a with comm := correct_comm }

/-- `MPI_Barrier` (split.c lines 545-551): its only argument is the
communicator. -/
def MPI_Barrier (pmpi_barrier : Comm → Int) (split_comm : Comm)
    (comm : Comm) : Int :=
  let correct_comm := GetCorrectComm split_comm comm
  pmpi_barrier correct_comm

/-- Arguments of `MPI_Allreduce` other than the communicator. -/
structure AllreduceArgs where
  sendbuf : Nat
  recvbuf : Nat
  count : Int
  datatype : Nat
  op : Nat
  comm : Comm
deriving DecidableEq, Repr

/-- `MPI_Allreduce` (split.c lines 688-696). -/
def MPI_Allreduce (pmpi_allreduce : AllreduceArgs → Int) (split_comm : Comm)
    (a : AllreduceArgs) : Int :=
  let correct_comm := GetCorrectComm split_comm a.comm
  pmpi_allreduce { a with comm := correct_comm }

/-- Arguments of `MPI_Comm_compare`: two communicators and the result
pointer. -/
structure CommCompareArgs where
  comm1 : Comm
  comm2 : Comm
  result : Nat
deriving DecidableEq, Repr

/-- `MPI_Comm_compare` (split.c lines 742-750): both communicator
arguments are translated independently. -/
def MPI_Comm_compare (pmpi : CommCompareArgs → Int) (split_comm : Comm)
    (a : CommCompareArgs) : Int :=
  let correct_comm1 := GetCorrectComm split_comm a.comm1
  let correct_comm2 := GetCorrectComm split_comm a.comm2
  pmpi { a with comm1 := correct_comm1, comm2 := correct_comm2 }

/-- Arguments of `MPI_Intercomm_create`: two communicators plus opaque
slots. -/
structure IntercommCreateArgs where
  local_comm : Comm
  local_leader : Int
  peer_comm : Comm
  remote_leader : Int
  tag : Int
  newintercomm : Nat
deriving DecidableEq, Repr

/-- `MPI_Intercomm_create` (split.c lines 815-826): both communicator
arguments are translated independently. -/
def MPI_Intercomm_create (pmpi : IntercommCreateArgs → Int)
    (split_comm : Comm) (a : IntercommCreateArgs) : Int :=
  let correct_local_comm := GetCorrectComm split_comm a.local_comm
  let correct_peer_comm := GetCorrectComm split_comm a.peer_comm
  pmpi { a with local_comm := correct_local_comm,
                peer_comm := correct_peer_comm }

/-- Arguments of `MPI_Comm_split` (the shadowed public entry point). -/
structure CommSplitArgs where
  comm : Comm
  color : Int
  key : Int
  newcomm : Nat
deriving DecidableEq, Repr

/-- `MPI_Comm_split` (split.c lines 776-782). -/
def MPI_Comm_split (pmpi : CommSplitArgs → Int) (split_comm : Comm)
    (a : CommSplitArgs) : Int :=
  let correct_comm := GetCorrectComm split_comm a.comm
  pmpi { a with comm := correct_comm }

/-- Arguments of `MPI_Comm_dup`. -/
structure CommDupArgs where
  comm : Comm
  newcomm : Nat
deriving DecidableEq, Repr

/-- `MPI_Comm_dup` (split.c lines 752-758). -/
def MPI_Comm_dup (pmpi : CommDupArgs → Int) (split_comm : Comm)
    (a : CommDupArgs) : Int :=
  let correct_comm := GetCorrectComm split_comm a.comm
  pmpi { a with comm := correct_comm }

/-- Arguments of `MPI_Bcast`. -/
structure BcastArgs where
  buffer : Nat
  count : Int
  datatype : Nat
  root : Int
  comm : Comm
deriving DecidableEq, Repr

/-- `MPI_Bcast` (split.c lines 553-559). -/
def MPI_Bcast (pmpi : BcastArgs → Int) (split_comm : Comm)
    (a : BcastArgs) : Int :=
  let correct_comm := GetCorrectComm split_comm a.comm
  pmpi { a with comm := correct_comm }

/-- `MPI_Comm_free` (split.c lines 785-789): the caller's handle is
forwarded to `PMPI_Comm_free` exactly as given; `GetCorrectComm` is not
called. -/
def MPI_Comm_free (pmpi : Comm → Int) (comm : Comm) : Int :=
  pmpi comm

/-- `MPI_Comm_disconnect` (split.c lines 1025-1028): the caller's handle
is forwarded to `PMPI_Comm_disconnect` exactly as given. -/
def MPI_Comm_disconnect (pmpi : Comm → Int) (comm : Comm) : Int :=
  pmpi comm

/-! ### Library lifecycle state (init / finalize) -/

/-- The library-visible state: the static `MPI_COMM_SPLIT` variable and
the underlying runtime's "has `MPI_Finalize` already run" flag (queried
through `MPI_Finalized`). -/
structure LibState where
  splitComm : Comm
  finalized : Bool
deriving DecidableEq, Repr

/-- State at library load: `MPI_COMM_SPLIT = MPI_COMM_NULL` (split.c
line 49) and the runtime not yet finalized. -/
def initialLibState : LibState :=
  { splitComm := MPI_COMM_SPLIT_initial, finalized := false }

/-- `SetSplitCommunicator` (split.c lines 84-88):
`PMPI_Comm_split(MPI_COMM_WORLD, color, 0, &MPI_COMM_SPLIT)`.  The
communicator produced by the underlying split is supplied by the oracle
`split_result` (a function of the color); a non-`MPI_SUCCESS` status
would be a fatal exit, so the state transition models the success path. -/
def SetSplitCommunicator (split_result : Int → Comm) (color : Int)
    (st : LibState) : LibState :=
  { st with splitComm := split_result color }

/-- Effect of `MPI_Init` / `MPI_Init_thread` on the library state
(split.c lines 255-287): after the real init returns, `SplitInit` runs
and its only write to the library state is `SetSplitCommunicator`. -/
def MPI_Init_state (split_result : Int → Comm) (color : Int)
    (st : LibState) : LibState :=
  SetSplitCommunicator split_result color st

/-- `MPI_Finalize` (split.c lines 289-316) as a state transition that
also reports which cleanup calls were made.  Returns
`(new state, freed split comm?, called underlying finalize?)`.
`PMPI_Comm_free(&MPI_COMM_SPLIT)` sets the freed handle to
`MPI_COMM_NULL` (MPI semantics of `MPI_Comm_free`); the underlying
finalize is invoked only when `MPI_Finalized` reports false, and marks
the runtime finalized. -/
def MPI_Finalize_state (st : LibState) : LibState × Bool × Bool :=
  let freeSplit := st.splitComm ≠ Comm.null
  let st1 := if st.splitComm ≠ Comm.null then
               { st with splitComm := Comm.null }
             else st
  let callFinalize := ¬ st1.finalized
  let st2 := if ¬ st1.finalized then { st1 with finalized := true } else st1
  (st2, freeSplit, callFinalize)

/-! ### Signal handlers -/

/-- The four handler functions defined in split.c (lines 143-174),
plus the two standard dispositions. -/
inductive Handler where
  | SegvHandler
  | AbrtHandler
  | SegvHandlerPause
  | AbrtHandlerPause
deriving DecidableEq, Repr

/-- Observable actions a handler body performs, in order. -/
inductive HandlerAction where
  | writeDiagnostic
  | resetSegvDefault
  | mpiFinalize
  | exitSuccess
  | pauseForever
deriving DecidableEq, Repr

/-- The body of each handler (split.c lines 143-174), as the sequence of
actions it performs.  `sig_dfl` is whether `W_SIG_DFL` is set in the
environment at handling time.  Note `AbrtHandler` resets the disposition
of `SIGSEGV` (as written at split.c line 159). -/
def handlerBody (sig_dfl : Bool) : Handler → List HandlerAction
  | Handler.SegvHandler =>
      HandlerAction.writeDiagnostic ::
        ((if sig_dfl then [HandlerAction.resetSegvDefault] else []) ++
          [HandlerAction.mpiFinalize, HandlerAction.exitSuccess])
  | Handler.AbrtHandler =>
      HandlerAction.writeDiagnostic ::
        ((if sig_dfl then [HandlerAction.resetSegvDefault] else []) ++
          [HandlerAction.mpiFinalize, HandlerAction.exitSuccess])
  | Handler.SegvHandlerPause =>
      [HandlerAction.writeDiagnostic, HandlerAction.pauseForever]
  | Handler.AbrtHandlerPause =>
      [HandlerAction.writeDiagnostic, HandlerAction.pauseForever]

/-- The feature-flag environment variables consulted by `SplitInit`
(split.c lines 187-253), each a presence-only toggle. -/
structure Flags where
  unsetPreload : Bool      -- W_UNSET_PRELOAD
  rankFromEnv : Bool       -- W_RANK_FROM_ENV
  ignoreSegv : Bool        -- W_IGNORE_SEGV
  ignoreAbrt : Bool        -- W_IGNORE_ABRT
  sigPause : Bool          -- W_SIG_PAUSE
  ignoreReturnCode : Bool  -- W_IGNORE_RETURN_CODE
  redirectOuterr : Bool    -- W_REDIRECT_OUTERR
deriving DecidableEq, Repr

/-- Handler installed for `SIGSEGV` when `W_IGNORE_SEGV` is set
(split.c lines 212-222). -/
def installedSegvHandler (f : Flags) : Option Handler :=
  if f.ignoreSegv then
    some (if f.sigPause then Handler.SegvHandlerPause else Handler.SegvHandler)
  else none

/-- Handler installed for `SIGABRT` when `W_IGNORE_ABRT` is set
(split.c lines 224-234).  Both branches of the `W_SIG_PAUSE` test in the
source install `AbrtHandlerPause`. -/
def installedAbrtHandler (f : Flags) : Option Handler :=
  if f.ignoreAbrt then
    some (if f.sigPause then Handler.AbrtHandlerPause else Handler.AbrtHandlerPause)
  else none

/-! ### The SplitInit orchestration order -/

/-- Observable steps of `SplitInit` (split.c lines 187-253), in program
order. -/
inductive InitStep where
  | unsetPreloadVar
  | readConfig
  | installSegv
  | installAbrt
  | installExitHandler
  | splitWorld (color : Int) (key : Int)
  | chdirStep
  | redirectStep
  | setEnvStep
deriving DecidableEq, Repr

/-- The sequence of steps `SplitInit` performs after the real init has
returned, transcribed from split.c lines 187-253.  (`GetRankParamsFromFile`
is the `readConfig` step; `SetSplitCommunicator` passes the color and the
constant key `0`; `SetWorkingDirectory`, `SetStdOutErr`,
`SetEnvironmentVaribles` are the last three steps.) -/
def SplitInitTrace (f : Flags) (color : Int) : List InitStep :=
  (if f.unsetPreload then [InitStep.unsetPreloadVar] else []) ++
  [InitStep.readConfig] ++
  (if f.ignoreSegv then [InitStep.installSegv] else []) ++
  (if f.ignoreAbrt then [InitStep.installAbrt] else []) ++
  (if f.ignoreReturnCode then [InitStep.installExitHandler] else []) ++
  [InitStep.splitWorld color 0, InitStep.chdirStep] ++
  (if f.redirectOuterr then [InitStep.redirectStep] else []) ++
  [InitStep.setEnvStep]

/-! ### C string scanning primitives

Strings are modelled as `List Char`.  `isSpace` matches C's `isspace`
in the default locale; `%s` in `sscanf` skips leading whitespace and
then reads a maximal run of non-whitespace characters; `%d` skips
leading whitespace and reads an optionally signed digit run. -/

def isSpace (c : Char) : Bool :=
  c = ' ' || c = '\t' || c = '\n' || c = '\x0b' || c = '\x0c' || c = '\r'

/-- Maximal non-whitespace prefix (what one `%s` conversion reads once
whitespace has been skipped). -/
def takeTok (s : List Char) : List Char :=
  s.takeWhile (fun c => ¬ isSpace c)

/-- Rest of the input after one `%s` conversion. -/
def dropTok (s : List Char) : List Char :=
  s.dropWhile (fun c => ¬ isSpace c)

/-- Skip leading whitespace. -/
def dropSpace (s : List Char) : List Char :=
  s.dropWhile (fun c => isSpace c)

/-- Numeric value of a digit run. -/
def digitsVal (ds : List Char) : Nat :=
  ds.foldl (fun acc c => 10 * acc + (c.toNat - '0'.toNat)) 0

/-- One `%d` conversion on input whose leading whitespace has been
skipped: optional sign followed by at least one digit; returns the value
and the unconsumed input, or `none` on matching failure. -/
def scanSignedInt (s : List Char) : Option (Int × List Char) :=
  let core : List Char → Option (Nat × List Char) := fun t =>
    let ds := t.takeWhile Char.isDigit
    if ds.isEmpty then none
    else some (digitsVal ds, t.drop ds.length)
  match s with
  | '-' :: rest => (core rest).map (fun p => (-(p.1 : Int), p.2))
  | '+' :: rest => (core rest).map (fun p => ((p.1 : Int), p.2))
  | _ => (core s).map (fun p => ((p.1 : Int), p.2))

/-! ### `SetEnvironmentVaribles` (split.c lines 98-117) -/

/-- `strsep(&env_vars, ";")`: split on every `;`, keeping empty fields. -/
def strsepSemi : List Char → List (List Char)
  | [] => [[]]
  | c :: cs =>
    if c = ';' then [] :: strsepSemi cs
    else
      match strsepSemi cs with
      | t :: ts => (c :: t) :: ts
      | [] => [[c]]

/-- `sscanf(token, "%s=%s", key, value)` (split.c line 108): the first
`%s` skips whitespace and reads a maximal non-whitespace run (which
includes any `=` characters); the literal `=` must then match the next
input character exactly; the second `%s` skips whitespace and reads
another run.  Returns the number of assigned conversions (`-1` is C's
`EOF`, returned when input fails before the first conversion) together
with the assigned key and value. -/
def sscanfKeyValue (token : List Char) :
    Int × Option (List Char) × Option (List Char) :=
  let s := dropSpace token
  if s.isEmpty then (-1, none, none)
  else
    let key := takeTok s
    let rest := dropTok s
    match rest with
    | '=' :: rest2 =>
      let s2 := dropSpace rest2
      if s2.isEmpty then (1, some key, none)
      else (2, some key, some (takeTok s2))
    | _ => (1, some key, none)

/-- `SetEnvironmentVaribles` (split.c lines 98-117): an empty string is
a no-op; otherwise each `strsep` token is scanned with `"%s=%s"` and the
pair is `setenv`'d when exactly two components were assigned, while any
other component count is the fatal `EXIT_PRINT("Error parsing
environment_variables")`.  Returns the list of `(key, value)` pairs set,
or `Except.error` for the fatal exit. -/
def SetEnvironmentVaribles (env_vars : List Char) :
    Except String (List (List Char × List Char)) :=
  if env_vars.length = 0 then Except.ok []
  else
    (strsepSemi env_vars).foldlM
      (fun acc token =>
        let r := sscanfKeyValue token
        match r with
        | (2, some key, some value) => Except.ok (acc ++ [(key, value)])
        | _ => Except.error "Error parsing environment_variables")
      []

/-! ### `GetRankParamsFromFile` (split.c lines 53-82) -/

/-- The three fatal-exit sites of `GetRankParamsFromFile` that the
claims distinguish (the `WRAPRUN_FILE`-unset exit precedes knowing the
path and is outside this model, which takes the opened file's contents
as input). -/
inductive ConfigError where
  | fileMissing     -- fopen failed
  | truncated       -- getline hit EOF before the rank's line
  | parseError      -- sscanf on the line returned EOF
deriving DecidableEq, Repr

/-- Result record of `GetRankParamsFromFile`: a field is `none` when the
corresponding `sscanf` conversion was never assigned (the C variable is
left with its previous contents). -/
structure RankParams where
  color : Option Int
  work_dir : Option (List Char)
  env_vars : Option (List Char)
deriving DecidableEq, Repr

/-- `sscanf(line, "%d %s %s", color, work_dir, env_vars)` (split.c line
76): returns the number of assigned conversions (`-1` for C's `EOF`,
which `sscanf` returns only when the input ends before the first
conversion is attempted, i.e. the line is empty or all whitespace)
together with the assigned fields. -/
def sscanfConfigLine (line : List Char) : Int × RankParams :=
  let s := dropSpace line
  if s.isEmpty then (-1, ⟨none, none, none⟩)
  else
    match scanSignedInt s with
    | none => (0, ⟨none, none, none⟩)
    | some (color, rest) =>
      let r1 := dropSpace rest
      if r1.isEmpty then (1, ⟨some color, none, none⟩)
      else
        let wd := takeTok r1
        let r2 := dropSpace (dropTok r1)
        if r2.isEmpty then (2, ⟨some color, some wd, none⟩)
        else (3, ⟨some color, some wd, some (takeTok r2)⟩)

/-- `GetRankParamsFromFile` (split.c lines 53-82) with the configuration
file modelled as `none` (cannot be opened) or the list of its lines.
The `getline` loop reads lines `0..rank` and exits fatally if any read
fails, i.e. when the file has fewer than `rank+1` lines; `sscanf` is then
applied to the rank's line and only a return of `EOF` is the fatal
"Error parsing file line" exit. -/
def GetRankParamsFromFile (rank : Nat) :
    Option (List (List Char)) → Except ConfigError RankParams
  | none => Except.error ConfigError.fileMissing
  | some lines =>
    if h : rank < lines.length then
      let line := lines.get ⟨rank, h⟩
      let r := sscanfConfigLine line
      if r.1 = -1 then Except.error ConfigError.parseError
      else Except.ok r.2
    else Except.error ConfigError.truncated

/-! ### Launcher wrapper (`intra_wrapper.c`) -/

/-- An environment as an association list; `getenvM` is `getenv`
(first binding wins), `setenvM` is `setenv(..., 1)` (overwrite). -/
def EnvMap := List (String × String)

def getenvM (env : EnvMap) (key : String) : Option String :=
  (List.find? (fun p => p.1 = key) env).map (fun p => p.2)

def setenvM (env : EnvMap) (key : String) (value : String) : EnvMap :=
  (key, value) :: List.filter (fun p => ¬ p.1 = key) env

/-- `atoi` on the result of `getenv`: dereferencing a `NULL` pointer is
undefined behaviour, modelled as `none`. -/
def atoiOfGetenv (v : Option String) : Option Int :=
  v.map (fun s =>
    match scanSignedInt (dropSpace s.data) with
    | some (n, _) => n
    | none => 0)

/-- The identity `SplitInit` looks up in the configuration file
(split.c lines 205-210): when `W_RANK_FROM_ENV` is present in the
environment, `atoi(getenv("W_ENV_RANK"))`; otherwise the world rank. -/
def configLookupIdentity (env : EnvMap) (world_rank : Int) : Option Int :=
  if (getenvM env "W_RANK_FROM_ENV").isSome then
    atoiOfGetenv (getenvM env "W_ENV_RANK")
  else some world_rank

/-- The environment the launcher's forked child builds before `execv`
(intra_wrapper.c lines 137-150): `LD_PRELOAD` is set from
`WRAPRUN_PRELOAD`, and the application index is published by
`setenv("W_RANK_FROM_ENV", itoa(my_app_num), 1)`. -/
def launcherChildEnv (env : EnvMap) (my_app_num : Int) : EnvMap :=
  let env1 :=
    match getenvM env "WRAPRUN_PRELOAD" with
    | some v => setenvM env "LD_PRELOAD" v
    | none => env  -- setenv(NULL) path; irrelevant to the identity claim
  setenvM env1 "W_RANK_FROM_ENV" (toString my_app_num)

/-- `MAX_INSTANCES` (intra_wrapper.c line 39). -/
def MAX_INSTANCES : Nat := 16

/-- The count-parsing loop (intra_wrapper.c lines 46-53): for
`i = 0 .. instance_entries-1` it writes `instance_counts[i]` with no
bound check against `MAX_INSTANCES`.  Returns the list of
`(index, value)` array writes and the accumulated `instance_count`. -/
def countLoop (instance_entries : Nat) (argvCount : Nat → Int) :
    List (Nat × Int) × Int :=
  (List.range instance_entries).foldl
    (fun acc i => (acc.1 ++ [(i, argvCount i)], acc.2 + argvCount i))
    ([], 0)

/-- The PID-collection inner loop (intra_wrapper.c lines 64-76): each
PID parsed from the `pidof` output line is written to
`pids[num_pids++]` with no bound check against `MAX_INSTANCES`.
Returns the list of `(index, pid)` array writes. -/
def pidLoop (linePids : List Int) : List (Nat × Int) :=
  linePids.enum

/-! ### Orderings on init steps, for stating the orchestration-order
claims -/

/-- Rank of each init step in the order the source performs them
(split before chdir/redirect/env). -/
def amendedStepRank : InitStep → Nat
  | InitStep.unsetPreloadVar => 0
  | InitStep.readConfig => 1
  | InitStep.installSegv => 2
  | InitStep.installAbrt => 3
  | InitStep.installExitHandler => 4
  | InitStep.splitWorld _ _ => 5
  | InitStep.chdirStep => 6
  | InitStep.redirectStep => 7
  | InitStep.setEnvStep => 8

/-- Rank of each init step in the order the specification claims
(directory/redirect/env first, split last). -/
def claimedStepRank : InitStep → Nat
  | InitStep.unsetPreloadVar => 0
  | InitStep.readConfig => 1
  | InitStep.installSegv => 2
  | InitStep.installAbrt => 3
  | InitStep.installExitHandler => 4
  | InitStep.chdirStep => 5
  | InitStep.redirectStep => 6
  | InitStep.setEnvStep => 7
  | InitStep.splitWorld _ _ => 8

/-- A concrete split-result oracle used to instantiate lifecycle
theorems: the underlying `PMPI_Comm_split` returns some fresh valid
handle. -/
def exampleSplitResult : Int → Comm := fun _ => Comm.handle 1

/-! ## Theorems -/

/-- Bounded quantification below a bound collapses to an inequality of
the bounds. -/
theorem forall_lt_imp_lt_iff (n m : Nat) : (∀ i, i < n → i < m) ↔ n ≤ m := by
  constructor
  · intro h
    by_contra hm
    push_neg at hm
    exact absurd (h m hm) (lt_irrefl m)
  · intro h i hi
    exact lt_of_lt_of_le hi h

/-- The first components written by `countLoop`'s fold are exactly
`0 .. entries-1`. -/
theorem countLoop_writes (entries : Nat) (f : Nat → Int) :
    (countLoop entries f).1.map Prod.fst = List.range entries := by
  have general : ∀ (l : List Nat) (acc : List (Nat × Int)) (s : Int),
      (l.foldl (fun acc i => (acc.1 ++ [(i, f i)], acc.2 + f i)) (acc, s)).1 =
        acc ++ l.map (fun i => (i, f i)) := by
    intro l
    induction l with
    | nil => intro acc s; simp
    | cons x xs ih => intro acc s; simp [List.foldl_cons, ih]
  simp only [countLoop, general, List.nil_append, List.map_map]
  have : (Prod.fst ∘ fun i => (i, f i)) = fun i : Nat => i := rfl
  rw [this, List.map_id']

/-- The `sscanf` of a configuration line returns `EOF` exactly when the
line is empty or all whitespace. -/
theorem sscanfConfigLine_eof_iff (line : List Char) :
    (sscanfConfigLine line).1 = -1 ↔ dropSpace line = [] := by
  rcases hd : dropSpace line with _ | ⟨c, cs⟩
  · simp [sscanfConfigLine, hd]
  · simp only [sscanfConfigLine, hd, List.isEmpty_cons, Bool.false_eq_true,
      if_false]
    rcases hs : scanSignedInt (c :: cs) with _ | ⟨n, rest⟩
    · simp [hs]
    · simp only [hs]
      split
      · simp
      · split <;> simp

/-- The first components written by the PID-collection pass are exactly
`0 .. length-1`. -/
theorem pidLoop_writes (linePids : List Int) :
    (pidLoop linePids).map Prod.fst = List.range linePids.length := by
  simp [pidLoop, List.enum_map_fst]

/-- C1: every shadowed entry point taking communicator arguments (other
than `comm_free`/`comm_disconnect`) forwards, at each communicator slot,
`SPLIT_COMM` when the argument is the world communicator and the
argument itself otherwise; all non-communicator slots are forwarded
unchanged and the twin's return value is returned unchanged.  Stated for
the modelled cross-section of the substitution table, including the
two-communicator entry points. -/
theorem c1_shadow_translates_comm_slots :
    (∀ (pmpi : SendArgs → Int) (s : Comm) (a : SendArgs),
       MPI_Send pmpi s a =
         pmpi ⟨a.buf, a.count, a.datatype, a.dest, a.tag,
               if a.comm = Comm.world then s else a.comm⟩) ∧
    (∀ (pmpi : RecvArgs → Int) (s : Comm) (a : RecvArgs),
       MPI_Recv pmpi s a =
         pmpi ⟨a.buf, a.count, a.datatype, a.source, a.tag,
               if a.comm = Comm.world then s else a.comm, a.status⟩) ∧
    (∀ (pmpi : Comm → Int) (s : Comm) (c : Comm),
       MPI_Barrier pmpi s c = pmpi (if c = Comm.world then s else c)) ∧
    (∀ (pmpi : AllreduceArgs → Int) (s : Comm) (a : AllreduceArgs),
       MPI_Allreduce pmpi s a =
         pmpi ⟨a.sendbuf, a.recvbuf, a.count, a.datatype, a.op,
               if a.comm = Comm.world then s else a.comm⟩) ∧
    (∀ (pmpi : BcastArgs → Int) (s : Comm) (a : BcastArgs),
       MPI_Bcast pmpi s a =
         pmpi ⟨a.buffer, a.count, a.datatype, a.root,
               if a.comm = Comm.world then s else a.comm⟩) ∧
    (∀ (pmpi : CommDupArgs → Int) (s : Comm) (a : CommDupArgs),
       MPI_Comm_dup pmpi s a =
         pmpi ⟨if a.comm = Comm.world then s else a.comm, a.newcomm⟩) ∧
    (∀ (pmpi : CommSplitArgs → Int) (s : Comm) (a : CommSplitArgs),
       MPI_Comm_split pmpi s a =
         pmpi ⟨if a.comm = Comm.world then s else a.comm,
               a.color, a.key, a.newcomm⟩) ∧
    (∀ (pmpi : CommCompareArgs → Int) (s : Comm) (a : CommCompareArgs),
       MPI_Comm_compare pmpi s a =
         pmpi ⟨if a.comm1 = Comm.world then s else a.comm1,
               if a.comm2 = Comm.world then s else a.comm2, a.result⟩) ∧
    (∀ (pmpi : IntercommCreateArgs → Int) (s : Comm)
       (a : IntercommCreateArgs),
       MPI_Intercomm_create pmpi s a =
         pmpi ⟨if a.local_comm = Comm.world then s else a.local_comm,
               a.local_leader,
               if a.peer_comm = Comm.world then s else a.peer_comm,
               a.remote_leader, a.tag, a.newintercomm⟩) := by
  refine ⟨?_, ?_, ?_, ?_, ?_, ?_, ?_, ?_, ?_⟩ <;> intro pmpi s a <;> rfl

/-- C2: `MPI_COMM_SPLIT` is the null sentinel before init and after the
shadowed `MPI_Finalize`; between init and finalize it holds the
communicator produced by the underlying split (a valid non-null,
non-world handle when the split succeeds); `MPI_Finalize` frees the
split communicator exactly when it is non-null and invokes the
underlying finalize exactly when finalization has not already
occurred. -/
theorem c2_split_comm_lifecycle (split_result : Int → Comm) (color : Int)
    (st stf : LibState)
    (hnull : split_result color ≠ Comm.null)
    (hworld : split_result color ≠ Comm.world) :
    initialLibState.splitComm = Comm.null ∧
    (MPI_Init_state split_result color st).splitComm = split_result color ∧
    (MPI_Init_state split_result color st).splitComm ≠ Comm.null ∧
    (MPI_Init_state split_result color st).splitComm ≠ Comm.world ∧
    (MPI_Finalize_state stf).1.splitComm = Comm.null ∧
    ((MPI_Finalize_state stf).2.1 = true ↔ stf.splitComm ≠ Comm.null) ∧
    ((MPI_Finalize_state stf).2.2 = true ↔ stf.finalized = false) := by
  refine ⟨rfl, rfl, hnull, hworld, ?_, ?_, ?_⟩ <;>
    by_cases h : stf.splitComm = Comm.null <;>
    by_cases h2 : stf.finalized <;>
    simp [MPI_Finalize_state, h, h2]

/-- Witness for the lifecycle theorem at a concrete split oracle and
concrete states. -/
theorem c2_split_comm_lifecycle_witness :
    (exampleSplitResult 0 ≠ Comm.null ∧ exampleSplitResult 0 ≠ Comm.world) ∧
    (initialLibState.splitComm = Comm.null ∧
     (MPI_Init_state exampleSplitResult 0 initialLibState).splitComm =
       exampleSplitResult 0 ∧
     (MPI_Init_state exampleSplitResult 0 initialLibState).splitComm ≠
       Comm.null ∧
     (MPI_Init_state exampleSplitResult 0 initialLibState).splitComm ≠
       Comm.world ∧
     (MPI_Finalize_state ⟨Comm.handle 1, false⟩).1.splitComm = Comm.null ∧
     ((MPI_Finalize_state ⟨Comm.handle 1, false⟩).2.1 = true ↔
       (LibState.mk (Comm.handle 1) false).splitComm ≠ Comm.null) ∧
     ((MPI_Finalize_state ⟨Comm.handle 1, false⟩).2.2 = true ↔
       (LibState.mk (Comm.handle 1) false).finalized = false)) :=
  ⟨⟨by decide, by decide⟩,
   c2_split_comm_lifecycle exampleSplitResult 0 initialLibState
     ⟨Comm.handle 1, false⟩ (by decide) (by decide)⟩

/-- C3 counterexample: with all optional steps enabled (redirect on,
both signal flags on, exit hook on) and color 7, the steps of
`SplitInit` are not in the order the claim states (config, handlers,
chdir, redirect, env, split last): the split is performed before the
directory/redirect/env steps. -/
theorem c3_counterexample_order :
    ¬ ((SplitInitTrace ⟨false, false, true, true, false, true, true⟩ 7).map
        claimedStepRank).Sorted (· < ·) := by
  decide

/-- C3 amended: after the real init returns, `SplitInit` reads the
configuration line, installs the signal/exit handlers, then splits the
world with the color as partition key and key `0`, and only afterwards
changes directory, reopens the standard streams (if enabled) and applies
the environment assignments; each enabled step occurs in the trace. -/
theorem c3_amended_init_order (f : Flags) (color : Int) :
    ((SplitInitTrace f color).map amendedStepRank).Sorted (· < ·) ∧
    InitStep.readConfig ∈ SplitInitTrace f color ∧
    InitStep.splitWorld color 0 ∈ SplitInitTrace f color ∧
    InitStep.chdirStep ∈ SplitInitTrace f color ∧
    InitStep.setEnvStep ∈ SplitInitTrace f color ∧
    (f.redirectOuterr = true → InitStep.redirectStep ∈ SplitInitTrace f color) ∧
    (f.ignoreSegv = true → InitStep.installSegv ∈ SplitInitTrace f color) ∧
    (f.ignoreAbrt = true → InitStep.installAbrt ∈ SplitInitTrace f color) ∧
    (f.ignoreReturnCode = true →
      InitStep.installExitHandler ∈ SplitInitTrace f color) := by
  rcases f with ⟨u, re, s, a, p, rc, ro⟩
  cases u <;> cases s <;> cases a <;> cases rc <;> cases ro <;>
    simp [SplitInitTrace, amendedStepRank, List.sorted_cons]

/-- Witness for the amended init-order theorem: discharging the
redirect-enabled hypothesis at a concrete flag set. -/
theorem c3_amended_init_order_witness :
    InitStep.redirectStep ∈
      SplitInitTrace ⟨false, false, true, true, false, true, true⟩ 7 :=
  (c3_amended_init_order ⟨false, false, true, true, false, true, true⟩
      7).2.2.2.2.2.1 rfl

/-- C4: the spec's own example line `0 /tmp FOO=bar;BAZ=qux` carries the
environment string `FOO=bar;BAZ=qux`; the code's
`sscanf(token, "%s=%s", ...)` assigns only one component for the token
`FOO=bar` (the first `%s` consumes the `=`), so `SetEnvironmentVaribles`
takes the fatal-exit branch instead of binding `FOO` and `BAZ`. -/
theorem c4_env_assignment_fatal :
    SetEnvironmentVaribles "FOO=bar;BAZ=qux".data =
      Except.error "Error parsing environment_variables" ∧
    sscanfKeyValue "FOO=bar".data = (1, some "FOO=bar".data, none) ∧
    (sscanfConfigLine "0 /tmp FOO=bar;BAZ=qux".data).2 =
      ⟨some 0, some "/tmp".data, some "FOO=bar;BAZ=qux".data⟩ := by
  refine ⟨?_, ?_, ?_⟩ <;> rfl

/-- C5: with `W_IGNORE_ABRT` set and `W_SIG_PAUSE` unset, the handler
the code installs for the abort signal is `AbrtHandlerPause`, whose body
writes the diagnostic and then blocks forever; the finalize-and-exit
body the claim describes is `AbrtHandler`, which both branches of the
install site leave unused. -/
theorem c5_abrt_handler_installed :
    installedAbrtHandler ⟨false, false, false, true, false, false, false⟩ =
      some Handler.AbrtHandlerPause ∧
    installedAbrtHandler ⟨false, false, false, true, true, false, false⟩ =
      some Handler.AbrtHandlerPause ∧
    handlerBody false Handler.AbrtHandlerPause =
      [HandlerAction.writeDiagnostic, HandlerAction.pauseForever] ∧
    handlerBody false Handler.AbrtHandler =
      [HandlerAction.writeDiagnostic, HandlerAction.mpiFinalize,
       HandlerAction.exitSuccess] ∧
    installedSegvHandler ⟨false, false, true, false, false, false, false⟩ =
      some Handler.SegvHandler := by
  refine ⟨rfl, rfl, rfl, rfl, rfl⟩

/-- C6: the launcher child with application index 0 publishes the index
in `W_RANK_FROM_ENV`, but the init orchestrator, seeing
`W_RANK_FROM_ENV` set, reads the numeric identity from `W_ENV_RANK`,
which the launcher never sets: the lookup dereferences a null `getenv`
result instead of producing the published index. -/
theorem c6_identity_variable_mismatch :
    getenvM (launcherChildEnv [("WRAPRUN_PRELOAD", "libsplit.so")] 0)
        "W_RANK_FROM_ENV" = some "0" ∧
    getenvM (launcherChildEnv [("WRAPRUN_PRELOAD", "libsplit.so")] 0)
        "W_ENV_RANK" = none ∧
    configLookupIdentity (launcherChildEnv [("WRAPRUN_PRELOAD", "libsplit.so")] 0)
        5 = none := by
  refine ⟨rfl, rfl, rfl⟩

/-- C7 counterexample: a rank line whose first token is not a number
("abc def") does not make `GetRankParamsFromFile` exit — `sscanf`
returns `0`, not `EOF`, so the reader returns with the color never
assigned, where the claim requires a fatal diagnostic. -/
theorem c7_counterexample_no_color_ok :
    GetRankParamsFromFile 0 (some ["abc def".data]) =
      Except.ok ⟨none, none, none⟩ := by
  rfl

/-- C7 amended: the reader exits fatally in exactly three cases — the
file cannot be opened, the file has fewer than `rank+1` lines, and the
rank's line is empty or all whitespace (the only way `sscanf` returns
`EOF`); in every other case it returns the fields `sscanf` assigned,
with the color left unassigned when the first token is not numeric. -/
theorem c7_amended_config_reader (rank : Nat) (lines : List (List Char)) :
    GetRankParamsFromFile rank none = Except.error ConfigError.fileMissing ∧
    (lines.length ≤ rank →
      GetRankParamsFromFile rank (some lines) =
        Except.error ConfigError.truncated) ∧
    (∀ h : rank < lines.length,
      (GetRankParamsFromFile rank (some lines) =
          Except.error ConfigError.parseError ↔
        dropSpace (lines.get ⟨rank, h⟩) = []) ∧
      (dropSpace (lines.get ⟨rank, h⟩) ≠ [] →
        GetRankParamsFromFile rank (some lines) =
          Except.ok (sscanfConfigLine (lines.get ⟨rank, h⟩)).2)) := by
  refine ⟨rfl, ?_, ?_⟩
  · intro hle
    simp only [GetRankParamsFromFile]
    rw [dif_neg (Nat.not_lt.mpr hle)]
  · intro h
    have hiff := sscanfConfigLine_eof_iff (lines.get ⟨rank, h⟩)
    constructor
    · simp only [GetRankParamsFromFile]
      rw [dif_pos h]
      by_cases hc : (sscanfConfigLine (lines.get ⟨rank, h⟩)).1 = -1
      · rw [if_pos hc]
        simpa using hiff.mp hc
      · rw [if_neg hc]
        constructor
        · intro hcontr
          simp at hcontr
        · intro he
          exact absurd (hiff.mpr he) hc
    · intro hne
      simp only [GetRankParamsFromFile]
      rw [dif_pos h]
      rw [if_neg (fun hc => hne (hiff.mp hc))]

/-- Witness for the amended config-reader theorem: a whitespace-only
line is the parse-error exit, and a too-short file is the truncation
exit. -/
theorem c7_amended_config_reader_witness :
    GetRankParamsFromFile 1 (some ["7 /a".data, "   ".data]) =
      Except.error ConfigError.parseError ∧
    GetRankParamsFromFile 2 (some ["7 /a".data, "   ".data]) =
      Except.error ConfigError.truncated :=
  ⟨((c7_amended_config_reader 1 ["7 /a".data, "   ".data]).2.2
      (by decide)).1.mpr (by decide),
   (c7_amended_config_reader 2 ["7 /a".data, "   ".data]).2.1 (by decide)⟩

/-- C8: the shadowed `comm_free` and `comm_disconnect` forward the
caller's handle exactly as given — for every input handle, including the
world communicator, the handle the underlying free/disconnect observes is
the input itself, so `SPLIT_COMM` is never substituted into a free
path. -/
theorem c8_free_paths_forward_unrewritten :
    (∀ (pmpi : Comm → Int) (c : Comm), MPI_Comm_free pmpi c = pmpi c) ∧
    (∀ (pmpi : Comm → Int) (c : Comm), MPI_Comm_disconnect pmpi c = pmpi c) ∧
    MPI_Comm_free (fun c => if c = Comm.world then 1 else 0) Comm.world = 1 :=
  ⟨fun _ _ => rfl, fun _ _ => rfl, rfl⟩

/-- C9: before init has installed the split communicator,
`MPI_COMM_SPLIT` still holds its initial null sentinel, so a shadowed
call made with the world communicator forwards the null sentinel to the
twin; a non-world handle is forwarded untouched at any time. -/
theorem c9_pre_init_translation (c : Comm) (hc : c ≠ Comm.world) :
    GetCorrectComm MPI_COMM_SPLIT_initial Comm.world = Comm.null ∧
    (∀ pmpi : Comm → Int,
      MPI_Barrier pmpi MPI_COMM_SPLIT_initial Comm.world = pmpi Comm.null) ∧
    (∀ s : Comm, GetCorrectComm s c = c) := by
  refine ⟨rfl, fun pmpi => rfl, fun s => ?_⟩
  simp [GetCorrectComm, hc]

/-- Witness for the pre-init translation theorem at a concrete non-world
handle. -/
theorem c9_pre_init_translation_witness :
    (Comm.handle 3 ≠ Comm.world) ∧
    (GetCorrectComm MPI_COMM_SPLIT_initial Comm.world = Comm.null ∧
     (∀ pmpi : Comm → Int,
       MPI_Barrier pmpi MPI_COMM_SPLIT_initial Comm.world = pmpi Comm.null) ∧
     (∀ s : Comm, GetCorrectComm s (Comm.handle 3) = Comm.handle 3)) :=
  ⟨by decide, c9_pre_init_translation (Comm.handle 3) (by decide)⟩

/-- C10: the launcher's per-app count array and sibling-PID array writes
carry no bound check against `MAX_INSTANCES = 16`: every write of the
count-parsing loop is in bounds exactly when the number of app entries
is at most 16, and every write of the PID-collection pass is in bounds
exactly when the number of PIDs parsed from the `pidof` line is at most
16. -/
theorem c10_launcher_array_bounds (entries : Nat) (argvCount : Nat → Int)
    (linePids : List Int) :
    ((∀ w ∈ (countLoop entries argvCount).1, w.1 < MAX_INSTANCES) ↔
      entries ≤ MAX_INSTANCES) ∧
    ((∀ w ∈ pidLoop linePids, w.1 < MAX_INSTANCES) ↔
      linePids.length ≤ MAX_INSTANCES) := by
  have key : ∀ (ws : List (Nat × Int)) (n : Nat),
      ws.map Prod.fst = List.range n →
      ((∀ w ∈ ws, w.1 < MAX_INSTANCES) ↔ n ≤ MAX_INSTANCES) := by
    intro ws n hmap
    rw [← forall_lt_imp_lt_iff n MAX_INSTANCES]
    constructor
    · intro h i hi
      have hmem : i ∈ ws.map Prod.fst := by
        rw [hmap]; exact List.mem_range.mpr hi
      rcases List.mem_map.mp hmem with ⟨w, hw, rfl⟩
      exact h w hw
    · intro h w hw
      have hmem : w.1 ∈ ws.map Prod.fst := List.mem_map.mpr ⟨w, hw, rfl⟩
      rw [hmap] at hmem
      exact h w.1 (List.mem_range.mp hmem)
  exact ⟨key _ entries (countLoop_writes entries argvCount),
         key _ linePids.length (pidLoop_writes linePids)⟩

/-- Witness for the launcher-bounds theorem: 17 entries drive a write
out of bounds, and 3 parsed PIDs stay in bounds. -/
theorem c10_launcher_array_bounds_witness :
    (¬ ∀ w ∈ (countLoop 17 (fun _ => 1)).1, w.1 < MAX_INSTANCES) ∧
    (∀ w ∈ pidLoop [3, 1, 2], w.1 < MAX_INSTANCES) :=
  ⟨fun h =>
     absurd ((c10_launcher_array_bounds 17 (fun _ => 1) [3, 1, 2]).1.mp h)
       (by decide),
   (c10_launcher_array_bounds 17 (fun _ => 1) [3, 1, 2]).2.mpr (by decide)⟩

end Wraprun
